import Mathlib

/-!
Shallow embedding of the portfolio application's core data model and
operations (src/root/core/models.py, src/root/core/views.py,
src/root/core/management/commands/export_json.py), with theorems settling
the specification's claims about singleton enforcement, slug derivation,
publish-date defaulting, duration and expiry computation, view counting,
project filtering, export behaviour and the JSON profile endpoint.

Database tables are embedded as Lean lists of rows; a Django
`Model.save()` is an UPDATE-by-primary-key falling back to INSERT, embedded
as `dbUpsert`.  Dates are triples of numerals, instants are numerals.
File/image fields are not modelled (no claim depends on them).
-/

namespace Portfolio

/-! ### django.utils.text.slugify (ASCII fragment)

The source derives slugs with Django's `slugify`: NFKD-normalise and drop
non-ASCII, lowercase, delete characters other than word characters,
whitespace and hyphens, collapse runs of whitespace/hyphens to a single
hyphen, and strip leading/trailing hyphens and underscores.  We embed the
ASCII path (non-ASCII characters are dropped, matching the
encode-ascii-ignore step). -/

/-- Word characters of the regex class matched after lowercasing:
letters, digits and underscore. -/
def isWordChar (c : Char) : Bool :=
  c.isAlphanum || c == '_'

/-- Separator characters: ASCII whitespace and the hyphen. -/
def isSepChar (c : Char) : Bool :=
  c == ' ' || c == '\t' || c == '\n' || c == '\x0d' ||
  c == '\x0b' || c == '\x0c' || c == '-'

/-- Collapse every run of separator characters into a single hyphen.
The flag records whether the previous character was a separator. -/
def collapseGo : Bool → List Char → List Char
  | _, [] => []
  | inSep, c :: rest =>
    if isSepChar c then
      if inSep then collapseGo true rest
      else '-' :: collapseGo true rest
    else c :: collapseGo false rest

/-- Characters stripped from both ends of the slug. -/
def isStripChar (c : Char) : Bool :=
  c == '-' || c == '_'

/-- Embeds `django.utils.text.slugify` for ASCII input: lowercase, keep
only word/whitespace/hyphen characters, collapse separator runs into a
single hyphen, strip hyphens and underscores from both ends. -/
def slugify (s : String) : String :=
  let lowered := s.data.map Char.toLower
  let ascii := lowered.filter (fun c => c.toNat < 128)
  let kept := ascii.filter (fun c => isWordChar c || isSepChar c)
  let collapsed := collapseGo false kept
  let stripped :=
    ((collapsed.dropWhile isStripChar).reverse.dropWhile isStripChar).reverse
  String.mk stripped

/-! ### Calendar dates -/

/-- A calendar date (model `DateField` values). -/
structure Date where
  year : Nat
  month : Nat
  day : Nat
deriving Repr, DecidableEq

/-- Strict lexicographic order on dates, the order Python puts on
`datetime.date`. -/
def dateLt (a b : Date) : Bool :=
  a.year < b.year ||
  (a.year == b.year &&
    (a.month < b.month || (a.month == b.month && a.day < b.day)))

/-! ### Persistence: UPDATE-by-pk falling back to INSERT -/

/-- Embeds the persistence step of Django `Model.save()`: update every
row whose primary key matches (`ident`), or append the row when no
primary key matches. -/
def dbUpsert {α : Type} (ident : α → Nat) (db : List α) (p : α) : List α :=
  if db.any (fun r => ident r == ident p) then
    db.map (fun r => if ident r == ident p then p else r)
  else
    db ++ [p]

/-! ### Profile (models.py, class Profile) -/

/-- A `Profile` row; fields used by the profile endpoints and export. -/
structure ProfileRow where
  id : Nat
  name : String
  job_title : String
  bio : String
  summary : String
  email : String
  phone : String
  location : String
  github_url : Option String
  linkedin_url : Option String
  twitter_url : Option String
  website_url : Option String
  is_active : Bool
deriving Repr, DecidableEq

/-- Embeds `Profile.save`: when the saved row has `is_active`, first set
`is_active = False` on every stored row
(`Profile.objects.filter(is_active=True).update(is_active=False)` updates
exactly the active ones; deactivating the inactive ones too is the same
map), then persist. -/
def profileSave (db : List ProfileRow) (p : ProfileRow) : List ProfileRow :=
  let db' := if p.is_active then
    db.map (fun r => { r with is_active := false }) else db
  dbUpsert (fun r => r.id) db' p

/-- Number of stored profiles with `is_active = True`. -/
def countActiveProfiles (db : List ProfileRow) : Nat :=
  (db.filter (fun r => r.is_active)).length

/-! ### SiteSettings (models.py, class SiteSettings) -/

/-- A `SiteSettings` row, with the fields of the model. -/
structure SettingsRow where
  id : Nat
  site_title : String
  site_tagline : String
  site_description : Option String
  meta_keywords : String
  google_analytics_id : Option String
  contact_email : String
  contact_phone : Option String
  github_url : Option String
  linkedin_url : Option String
  twitter_url : Option String
  enable_blog : Bool
  enable_contact_form : Bool
  maintenance_mode : Bool
  is_active : Bool
deriving Repr, DecidableEq

/-- Embeds `SiteSettings.save`: identical singleton flip to
`Profile.save`, then persist. -/
def settingsSave (db : List SettingsRow) (p : SettingsRow) : List SettingsRow :=
  let db' := if p.is_active then
    db.map (fun r => { r with is_active := false }) else db
  dbUpsert (fun r => r.id) db' p

/-- Number of stored settings rows with `is_active = True`. -/
def countActiveSettings (db : List SettingsRow) : Nat :=
  (db.filter (fun r => r.is_active)).length

/-- The row `get_or_create` builds when no active `SiteSettings` exists:
the lookup argument `is_active=True`, the `defaults`
(`site_title='Portfolio'`, `contact_email='contact@example.com'`) and the
model's field defaults; `freshId` is the primary key the database assigns
on insert. -/
def defaultSettings (freshId : Nat) : SettingsRow :=
  { id := freshId
    site_title := "Portfolio"
    site_tagline := ""
    site_description := none
    meta_keywords := ""
    google_analytics_id := none
    contact_email := "contact@example.com"
    contact_phone := none
    github_url := none
    linkedin_url := none
    twitter_url := none
    enable_blog := true
    enable_contact_form := true
    maintenance_mode := false
    is_active := true }

/-- Embeds `SiteSettings.get_settings`:
`objects.get_or_create(is_active=True, defaults={'site_title': 'Portfolio',
'contact_email': 'contact@example.com'})`.  A lookup matching exactly one
row returns it; no match creates the default row (creation goes through
`SiteSettings.save`, hence `settingsSave`); more than one match raises
`MultipleObjectsReturned`, embedded as `.error`. -/
def get_settings (db : List SettingsRow) (freshId : Nat) :
    Except String (SettingsRow × List SettingsRow) :=
  match db.filter (fun r => r.is_active) with
  | [s] => .ok (s, db)
  | [] =>
    let s := defaultSettings freshId
    .ok (s, settingsSave db s)
  | _ => .error ("MultipleObjectsReturned")

/-! ### SkillArea / Skill (models.py) -/

/-- A `Skill` row with the fields the slug logic touches; `area_name`
denormalises the `area` foreign key's `name` (the only part of the related
row `Skill.save` reads). -/
structure SkillRow where
  id : Nat
  area_name : String
  name : String
  slug : String
  sfia_level : String
  sector : String
deriving Repr, DecidableEq

/-- Embeds the field mutation of `Skill.save`: when `slug` is empty,
derive it as `slugify(f"{self.area.name}-{self.name}")`. -/
def skillSaveRow (sk : SkillRow) : SkillRow :=
  if sk.slug = "" then
    { sk with slug := slugify (sk.area_name ++ "-" ++ sk.name) }
  else sk

/-- Embeds `Skill.save`: derive the slug when empty, then persist. -/
def skillSave (db : List SkillRow) (sk : SkillRow) : List SkillRow :=
  dbUpsert (fun r => r.id) db (skillSaveRow sk)

/-! ### Project (models.py, class Project; views.py, ProjectsListView) -/

/-- A `Project` row; `category_slug` denormalises the nullable
`category` foreign key's `slug` (`none` when `category` is NULL), which is
what the `category__slug` lookup reads. -/
structure ProjectRow where
  id : Nat
  title : String
  slug : String
  category_slug : Option String
  situation : String
  task : String
  action : String
  result : String
deriving Repr, DecidableEq

/-- Embeds the field mutation of `Project.save`: when `slug` is empty,
derive it as `slugify(self.title)`. -/
def projectSaveRow (p : ProjectRow) : ProjectRow :=
  if p.slug = "" then { p with slug := slugify p.title } else p

/-- Embeds `Project.save`: derive the slug when empty, then persist. -/
def projectSave (db : List ProjectRow) (p : ProjectRow) : List ProjectRow :=
  dbUpsert (fun r => r.id) db (projectSaveRow p)

/-- Lowercased character list of a string (Python `str.lower` on ASCII). -/
def strLower (s : String) : List Char :=
  s.data.map Char.toLower

/-- Does `needle` start the second list? -/
def leadEq : List Char → List Char → Bool
  | [], _ => true
  | _ :: _, [] => false
  | a :: as, b :: bs => a == b && leadEq as bs

/-- Does `needle` occur contiguously inside the list? -/
def subMatch (needle : List Char) : List Char → Bool
  | [] => needle.isEmpty
  | h :: t => leadEq needle (h :: t) || subMatch needle t

/-- Embeds the ORM `icontains` lookup: case-insensitive substring. -/
def icontains (hay needle : String) : Bool :=
  subMatch (strLower needle) (strLower hay)

/-- Embeds `ProjectsListView.get_queryset`: filter by exact category slug
when the `category` parameter is present and non-empty (Python truthiness
of `request.GET.get`), then by the free-text `q` parameter matched
case-insensitively against title OR situation OR action. -/
def projectsQueryset (db : List ProjectRow) (category q : Option String) :
    List ProjectRow :=
  let qs := match category with
    | some c => if c = "" then db
        else db.filter (fun p => p.category_slug == some c)
    | none => db
  match q with
  | some s => if s = "" then qs
      else qs.filter (fun p =>
        icontains p.title s || icontains p.situation s || icontains p.action s)
  | none => qs

/-! ### Experience (models.py, class Experience) -/

/-- An `Experience` row; fields the duration property and export read. -/
structure ExperienceRow where
  id : Nat
  role : String
  company : String
  location : String
  start_date : Date
  end_date : Option Date
  is_current : Bool
  situation : String
  task : String
  action : String
  result : String
deriving Repr, DecidableEq

/-- Embeds the rendering step of `Experience.duration`: the `parts` list
built from nonzero year and month components, joined with a space, or
"Less than 1 month" when both are zero. -/
def durationString (years months : Nat) : String :=
  let parts : List String :=
    (if years > 0 then
      [toString years ++ " yr" ++ (if years > 1 then "s" else "")] else []) ++
    (if months > 0 then
      [toString months ++ " mo" ++ (if months > 1 then "s" else "")] else [])
  if parts.isEmpty then "Less than 1 month" else String.intercalate (" ") parts

/-- Modelled from the spec: `Experience.duration` calls
`relativedelta(end, self.start_date)`, but `relativedelta` is never
imported anywhere in the repository (spec §9 flags the undefined import
and fixes the intent as standard Gregorian whole-month arithmetic), and
the module-level `timezone` is `datetime.timezone`, which has no `now()`.
This is the intended computation: `end` is `end_date` or today's date when
absent; elapsed whole months are the calendar month difference, borrowing
one when the end day of month is smaller than the start day; the result is
rendered by `durationString`. -/
def durationIntended (exp : ExperienceRow) (today : Date) : String :=
  let e := exp.end_date.getD today
  let m : Int :=
    ((e.year : Int) - exp.start_date.year) * 12 +
      ((e.month : Int) - exp.start_date.month) -
      (if e.day < exp.start_date.day then 1 else 0)
  durationString (m / 12).toNat (m % 12).toNat

/-! ### Certification (models.py, class Certification) -/

/-- A `Certification` row; fields the expiry property and export read. -/
structure CertificationRow where
  id : Nat
  title : String
  cert_type : String
  issuing_authority : String
  issue_date : Date
  expiry_date : Option Date
  credential_id : String
deriving Repr, DecidableEq

/-- Embeds `Certification.is_expired`: `False` when `expiry_date` is
absent, else `expiry_date < timezone.now().date()`. -/
def certIsExpired (c : CertificationRow) (today : Date) : Bool :=
  match c.expiry_date with
  | none => false
  | some d => dateLt d today

/-! ### BlogPost (models.py, class BlogPost; views.py, BlogPostDetailView) -/

/-- A `BlogPost` row; publication instants are abstract numerals. -/
structure BlogPostRow where
  id : Nat
  title : String
  slug : String
  excerpt : String
  content : String
  status : String
  published_date : Option Nat
  reading_time : Nat
  view_count : Nat
deriving Repr, DecidableEq

/-- Embeds the field mutations of `BlogPost.save`: derive the slug from
the title when empty, and set `published_date` to the current instant when
`status == 'published'` and `published_date` is unset. -/
def blogPostSaveRow (now : Nat) (p : BlogPostRow) : BlogPostRow :=
  let p := if p.slug = "" then { p with slug := slugify p.title } else p
  if p.status == "published" && p.published_date == none then
    { p with published_date := some now }
  else p

/-- Embeds `BlogPost.save`: mutate the row, then persist. -/
def blogPostSave (now : Nat) (db : List BlogPostRow) (p : BlogPostRow) :
    List BlogPostRow :=
  dbUpsert (fun r => r.id) db (blogPostSaveRow now p)

/-- Embeds the published-only lookup of `BlogPostDetailView`: the
queryset `BlogPost.objects.filter(status='published')` searched by slug. -/
def getPublished (db : List BlogPostRow) (slug : String) :
    Option BlogPostRow :=
  (db.filter (fun r => r.status == "published")).find?
    (fun r => r.slug == slug)

/-- Embeds `BlogPostDetailView.get_object`: look the post up through the
published-only queryset (no match is an `Http404`, embedded as `none`),
increment `view_count` on the fetched object and persist it with
`update_fields=['view_count']` (an UPDATE of that one column on the row
with the object's primary key). -/
def viewPost (db : List BlogPostRow) (slug : String) :
    Option (BlogPostRow × List BlogPostRow) :=
  match getPublished db slug with
  | none => none
  | some obj =>
    let obj' := { obj with view_count := obj.view_count + 1 }
    some (obj', db.map (fun r =>
      if r.id == obj'.id then { r with view_count := obj'.view_count } else r))

/-- Retrieve the post at `slug` through the detail view `n` times
sequentially, threading the stored state. -/
def viewTimes (slug : String) : Nat → List BlogPostRow → List BlogPostRow
  | 0, db => db
  | n + 1, db =>
    match viewPost db slug with
    | none => db
    | some (_, db') => viewTimes slug n db'

/-! ### export_json management command -/

/-- Outcome of one per-collection export step: a file written, or a
non-fatal warning printed. -/
inductive ExportOutcome where
  | written (file : String)
  | warning (msg : String)
deriving Repr, DecidableEq

/-- Embeds `Command.export_profile`: `objects.get(is_active=True)` — no
active row raises `DoesNotExist`, caught and turned into the warning
"No profile found"; more than one active row raises
`MultipleObjectsReturned`, which the `except Profile.DoesNotExist` clause
does not catch. -/
def export_profile (profiles : List ProfileRow) : Except String ExportOutcome :=
  match profiles.filter (fun r => r.is_active) with
  | [] => .ok (.warning ("No profile found"))
  | [_] => .ok (.written ("profile.json"))
  | _ => .error ("MultipleObjectsReturned")

/-- Embeds `Command.export_skills`: serialises every skill and always
writes the file. -/
def export_skills (_skills : List SkillRow) : ExportOutcome :=
  .written ("skills.json")

/-- Embeds `Command.export_projects`: always writes the file. -/
def export_projects (_projects : List ProjectRow) : ExportOutcome :=
  .written ("projects.json")

/-- Embeds `Command.export_experience`: always writes the file. -/
def export_experience (_experiences : List ExperienceRow) : ExportOutcome :=
  .written ("experience.json")

/-- Embeds `Command.export_certifications`: always writes the file. -/
def export_certifications (_certs : List CertificationRow) : ExportOutcome :=
  .written ("certifications.json")

/-- Embeds `Command.export_blog`: serialises the published posts and
always writes the file. -/
def export_blog (_posts : List BlogPostRow) : ExportOutcome :=
  .written ("blog.json")

/-- Embeds `Command.export_site_settings`: calls
`SiteSettings.get_settings()` inside a bare `try`/`except`; any exception
becomes the warning "No site settings found", otherwise `site.json` is
written.  Note `get_settings` creates a default row when none exists, so
absence of a settings row does not reach the `except` branch. -/
def export_site_settings (settings : List SettingsRow) (freshId : Nat) :
    ExportOutcome × List SettingsRow :=
  match get_settings settings freshId with
  | .ok (_, settings') => (.written ("site.json"), settings')
  | .error _ => (.warning ("No site settings found"), settings)

/-- The whole stored content set the command walks. -/
structure Database where
  profiles : List ProfileRow
  skills : List SkillRow
  projects : List ProjectRow
  experiences : List ExperienceRow
  certifications : List CertificationRow
  posts : List BlogPostRow
  settings : List SettingsRow
deriving Repr, DecidableEq

/-- Embeds `Command.handle`: run the seven per-collection exports in
source order, collecting their outcomes; an uncaught exception in
`export_profile` aborts the run (embedded as `.error`). -/
def exportHandle (db : Database) (freshId : Nat) :
    Except String (List ExportOutcome × Database) := do
  let o1 ← export_profile db.profiles
  let o2 := export_skills db.skills
  let o3 := export_projects db.projects
  let o4 := export_experience db.experiences
  let o5 := export_certifications db.certifications
  let o6 := export_blog db.posts
  let (o7, settings') := export_site_settings db.settings freshId
  .ok ([o1, o2, o3, o4, o5, o6, o7], { db with settings := settings' })

/-! ### profile_json view (views.py) -/

/-- The JSON object `profile_json` builds from the active profile. -/
structure ProfileJsonData where
  name : String
  title : String
  bio : String
  summary : String
  email : String
  github : Option String
  linkedin : Option String
  twitter : Option String
deriving Repr, DecidableEq

/-- An HTTP JSON response: status code and payload (`none` embeds the
empty JSON object `{}`). -/
structure HttpJsonResponse where
  status : Nat
  data : Option ProfileJsonData
deriving Repr, DecidableEq

/-- Embeds the `profile_json` view:
`Profile.objects.filter(is_active=True).first()`; no active profile
returns `JsonResponse({})` (HTTP 200 with an empty object), otherwise a
200 response with the profile's fields. -/
def profile_json (profiles : List ProfileRow) : HttpJsonResponse :=
  match (profiles.filter (fun r => r.is_active)).head? with
  | none => { status := 200, data := none }
  | some p =>
    { status := 200
      data := some
        { name := p.name
          title := p.job_title
          bio := p.bio
          summary := p.summary
          email := p.email
          github := p.github_url
          linkedin := p.linkedin_url
          twitter := p.twitter_url } }

/-! ### Sample rows used by witnesses -/

/-- A concrete profile row with the given primary key and active flag. -/
def sampleProfile (i : Nat) (act : Bool) : ProfileRow :=
  { id := i
    name := "Quang Cuong"
    job_title := "Developer"
    bio := "bio"
    summary := "summary"
    email := "me@example.com"
    phone := ""
    location := "VN"
    github_url := none
    linkedin_url := none
    twitter_url := none
    website_url := none
    is_active := act }

/-- The counterexample project for C2: its title slugifies to the empty
string, so the slug set at creation is empty and a later save recomputes
it. -/
def cexProject : ProjectRow :=
  { id := 1
    title := "!!!"
    slug := ""
    category_slug := none
    situation := "s"
    task := "t"
    action := "a"
    result := "r" }

/-- A concrete project row for witnesses. -/
def sampleProject (i : Nat) (title slug : String) (cat : Option String)
    (situation action : String) : ProjectRow :=
  { id := i
    title := title
    slug := slug
    category_slug := cat
    situation := situation
    task := "task"
    action := action
    result := "result" }

/-- A concrete skill row for witnesses. -/
def sampleSkill (i : Nat) (area name slug : String) : SkillRow :=
  { id := i
    area_name := area
    name := name
    slug := slug
    sfia_level := "L3"
    sector := "other" }

/-- A concrete blog post row for witnesses. -/
def samplePost (i : Nat) (slug status : String) (pubDate : Option Nat)
    (views : Nat) : BlogPostRow :=
  { id := i
    title := "Post"
    slug := slug
    excerpt := "e"
    content := "c"
    status := status
    published_date := pubDate
    reading_time := 5
    view_count := views }

/-- The first concrete experience of the spec's duration example. -/
def expJanToMar : ExperienceRow :=
  { id := 1
    role := "Engineer"
    company := "Acme"
    location := "VN"
    start_date := ⟨2020, 1, 15⟩
    end_date := some ⟨2021, 3, 15⟩
    is_current := false
    situation := "s"
    task := "t"
    action := "a"
    result := "r" }

/-- The second concrete experience of the spec's duration example: a
current role two weeks old. -/
def expCurrent : ExperienceRow :=
  { expJanToMar with
    id := 2
    start_date := ⟨2024, 1, 1⟩
    end_date := none
    is_current := true }

/-- A concrete certification row for witnesses. -/
def sampleCert (i : Nat) (expiry : Option Date) : CertificationRow :=
  { id := i
    title := "Cert"
    cert_type := "certification"
    issuing_authority := "Authority"
    issue_date := ⟨2022, 5, 1⟩
    expiry_date := expiry
    credential_id := "ABC" }

/-! ## Helper lemmas -/

/-- `dateLt` never holds between a date and itself. -/
theorem dateLt_irrefl (d : Date) : dateLt d d = false := by
  simp [dateLt]

/-- Upserting an active row into a table of inactive rows with distinct
primary keys leaves exactly one active row. -/
theorem filter_length_dbUpsert {α : Type} (ident : α → Nat) (act : α → Bool)
    (db : List α) (p : α)
    (hall : ∀ r ∈ db, act r = false) (hp : act p = true)
    (hnd : (db.map ident).Nodup) :
    ((dbUpsert ident db p).filter act).length = 1 := by
  unfold dbUpsert
  by_cases h : db.any (fun r => ident r == ident p) = true
  · simp only [h, if_true]
    rw [← List.countP_eq_length_filter, List.countP_map]
    have h1 : db.countP (fun r => act (if ident r == ident p then p else r))
        = db.countP (fun r => ident r == ident p) := by
      apply List.countP_congr
      intro r hr
      by_cases hid : (ident r == ident p) = true
      · simp [hid, hp]
      · simp [hid, hall r hr]
    have h2 : db.countP (fun r => ident r == ident p)
        = (db.map ident).count (ident p) := by
      rw [List.count_eq_countP, List.countP_map]
      rfl
    have h3 : ident p ∈ db.map ident := by
      rcases List.any_eq_true.mp h with ⟨r, hr, hrp⟩
      exact List.mem_map.mpr ⟨r, hr, eq_of_beq hrp⟩
    calc db.countP (fun r => act (if ident r == ident p then p else r))
        = (db.map ident).count (ident p) := by rw [h1, h2]
      _ = 1 := List.count_eq_one_of_mem hnd h3
  · rw [if_neg h, List.filter_append]
    have h1 : db.filter act = [] := by
      apply List.filter_eq_nil_iff.mpr
      intro r hr
      simp [hall r hr]
    simp [h1, hp]

/-- Upserting never duplicates a primary key. -/
theorem nodup_map_ident_dbUpsert {α : Type} (ident : α → Nat)
    (db : List α) (p : α) (hnd : (db.map ident).Nodup) :
    ((dbUpsert ident db p).map ident).Nodup := by
  unfold dbUpsert
  by_cases h : db.any (fun r => ident r == ident p) = true
  · simp only [h, if_true, List.map_map]
    have he : ∀ r ∈ db, (ident ∘ fun r => if ident r == ident p then p else r) r
        = ident r := by
      intro r _
      by_cases hc : (ident r == ident p) = true
      · simp [Function.comp, hc, (eq_of_beq hc).symm]
      · simp [Function.comp, hc]
    rw [List.map_congr_left he]
    exact hnd
  · rw [if_neg h, List.map_append]
    refine List.nodup_append.mpr ⟨hnd, List.nodup_singleton _, ?_⟩
    intro a ha hb
    simp only [List.map_cons, List.map_nil, List.mem_singleton] at hb
    subst hb
    rcases List.mem_map.mp ha with ⟨r, hr, hrp⟩
    exact h (List.any_eq_true.mpr ⟨r, hr, beq_iff_eq.mpr hrp⟩)

/-- After saving an active profile, exactly one stored profile is
active. -/
theorem countActiveProfiles_profileSave (db : List ProfileRow)
    (p : ProfileRow) (hp : p.is_active = true)
    (hnd : (db.map (fun r => r.id)).Nodup) :
    countActiveProfiles (profileSave db p) = 1 := by
  unfold profileSave countActiveProfiles
  simp only [hp, if_true]
  apply filter_length_dbUpsert
  · intro r hr
    rcases List.mem_map.mp hr with ⟨s, _, rfl⟩
    rfl
  · exact hp
  · rw [List.map_map]
    exact hnd

/-- `profileSave` preserves distinctness of primary keys. -/
theorem nodup_profileSave (db : List ProfileRow) (p : ProfileRow)
    (hnd : (db.map (fun r => r.id)).Nodup) :
    ((profileSave db p).map (fun r => r.id)).Nodup := by
  unfold profileSave
  by_cases hp : p.is_active = true
  · simp only [hp, if_true]
    apply nodup_map_ident_dbUpsert
    rw [List.map_map]
    exact hnd
  · simp only [hp, if_false]
    exact nodup_map_ident_dbUpsert _ _ _ hnd

/-- A nonempty sequence of active profile saves ends with exactly one
active profile. -/
theorem countActiveProfiles_foldl (ps : List ProfileRow) :
    ∀ db : List ProfileRow, (db.map (fun r => r.id)).Nodup → ps ≠ [] →
      (∀ p ∈ ps, p.is_active = true) →
      countActiveProfiles (ps.foldl profileSave db) = 1 := by
  induction ps with
  | nil => intro db _ hne _; exact absurd rfl hne
  | cons p rest ih =>
    intro db hnd _ hall
    cases rest with
    | nil =>
      simp only [List.foldl_cons, List.foldl_nil]
      exact countActiveProfiles_profileSave db p (hall p (by simp)) hnd
    | cons q qs =>
      simp only [List.foldl_cons]
      refine ih (profileSave db p) (nodup_profileSave db p hnd) (by simp)
        (fun x hx => hall x ?_)
      simp only [List.mem_cons] at hx ⊢
      tauto

/-- After saving an active settings row, exactly one stored settings row
is active. -/
theorem countActiveSettings_settingsSave (db : List SettingsRow)
    (p : SettingsRow) (hp : p.is_active = true)
    (hnd : (db.map (fun r => r.id)).Nodup) :
    countActiveSettings (settingsSave db p) = 1 := by
  unfold settingsSave countActiveSettings
  simp only [hp, if_true]
  apply filter_length_dbUpsert
  · intro r hr
    rcases List.mem_map.mp hr with ⟨s, _, rfl⟩
    rfl
  · exact hp
  · rw [List.map_map]
    exact hnd

/-- `settingsSave` preserves distinctness of primary keys. -/
theorem nodup_settingsSave (db : List SettingsRow) (p : SettingsRow)
    (hnd : (db.map (fun r => r.id)).Nodup) :
    ((settingsSave db p).map (fun r => r.id)).Nodup := by
  unfold settingsSave
  by_cases hp : p.is_active = true
  · simp only [hp, if_true]
    apply nodup_map_ident_dbUpsert
    rw [List.map_map]
    exact hnd
  · simp only [hp, if_false]
    exact nodup_map_ident_dbUpsert _ _ _ hnd

/-- A nonempty sequence of active settings saves ends with exactly one
active settings row. -/
theorem countActiveSettings_foldl (ss : List SettingsRow) :
    ∀ db : List SettingsRow, (db.map (fun r => r.id)).Nodup → ss ≠ [] →
      (∀ s ∈ ss, s.is_active = true) →
      countActiveSettings (ss.foldl settingsSave db) = 1 := by
  induction ss with
  | nil => intro db _ hne _; exact absurd rfl hne
  | cons p rest ih =>
    intro db hnd _ hall
    cases rest with
    | nil =>
      simp only [List.foldl_cons, List.foldl_nil]
      exact countActiveSettings_settingsSave db p (hall p (by simp)) hnd
    | cons q qs =>
      simp only [List.foldl_cons]
      refine ih (settingsSave db p) (nodup_settingsSave db p hnd) (by simp)
        (fun x hx => hall x ?_)
      simp only [List.mem_cons] at hx ⊢
      tauto

/-- Mapping a row transformation that does not change the filtered
predicate commutes with filtering. -/
theorem filter_map_comm {α : Type} (f : α → α) (pr : α → Bool)
    (h : ∀ a, pr (f a) = pr a) (l : List α) :
    (l.map f).filter pr = (l.filter pr).map f := by
  induction l with
  | nil => rfl
  | cons a t ih =>
    by_cases ha : pr a = true <;>
      simp [List.filter_cons, h, ha, ih]

/-- Mapping a row transformation that does not change the searched
predicate commutes with `find?`. -/
theorem find?_map_comm {α : Type} (f : α → α) (pr : α → Bool)
    (h : ∀ a, pr (f a) = pr a) (l : List α) :
    (l.map f).find? pr = (l.find? pr).map f := by
  induction l with
  | nil => rfl
  | cons a t ih =>
    by_cases ha : pr a = true
    · rw [List.map_cons, List.find?_cons_of_pos _ (by rw [h]; exact ha),
        List.find?_cons_of_pos _ ha]
      rfl
    · rw [List.map_cons, List.find?_cons_of_neg _ (by rw [h]; exact ha),
        List.find?_cons_of_neg _ ha, ih]

/-- One retrieval through the detail view returns the found post with its
count incremented and persists the increment on that primary key. -/
theorem viewPost_found (db : List BlogPostRow) (slug : String)
    (p : BlogPostRow) (h : getPublished db slug = some p) :
    viewPost db slug =
      some ({ p with view_count := p.view_count + 1 },
        db.map (fun r => if r.id == p.id then
          { r with view_count := p.view_count + 1 } else r)) := by
  unfold viewPost
  rw [h]

/-- The published-only lookup after persisting the increment finds the
same post with its count incremented. -/
theorem getPublished_after_view (db : List BlogPostRow) (slug : String)
    (p : BlogPostRow) (h : getPublished db slug = some p) :
    getPublished
      (db.map (fun r => if r.id == p.id then
        { r with view_count := p.view_count + 1 } else r)) slug
      = some { p with view_count := p.view_count + 1 } := by
  unfold getPublished at h ⊢
  rw [filter_map_comm _ _ (fun a => by by_cases hc : (a.id == p.id) = true <;>
      simp [hc])]
  rw [find?_map_comm _ _ (fun a => by by_cases hc : (a.id == p.id) = true <;>
      simp [hc])]
  rw [h]
  simp

/-- Retrieving a found published post `n` times increments its stored
view count by exactly `n`. -/
theorem getPublished_viewTimes (slug : String) :
    ∀ (n : Nat) (db : List BlogPostRow) (p : BlogPostRow),
      getPublished db slug = some p →
      getPublished (viewTimes slug n db) slug =
        some { p with view_count := p.view_count + n } := by
  intro n
  induction n with
  | zero => intro db p h; exact h
  | succ n ih =>
    intro db p h
    have hv := viewPost_found db slug p h
    have h2 := getPublished_after_view db slug p h
    have h3 := ih _ _ h2
    rw [show p.view_count + 1 + n = p.view_count + (n + 1) from by omega] at h3
    simp only [viewTimes, hv]
    exact h3

/-- A slug whose rows are all non-published is not retrievable through
the published-only accessor. -/
theorem viewPost_not_published (db : List BlogPostRow) (slug : String)
    (h : ∀ r ∈ db, r.slug = slug → ¬ r.status = "published") :
    viewPost db slug = none := by
  have hn : getPublished db slug = none := by
    unfold getPublished
    apply List.find?_eq_none.mpr
    intro x hx hbeq
    have hxm := List.mem_filter.mp hx
    exact h x hxm.1 (by simpa using hbeq) (by simpa using hxm.2)
  unfold viewPost
  rw [hn]

/-! ## Claims -/

/-- C1: for every sequence of sequential saves of Profile rows (or
SiteSettings rows) in which each saved row has `active = true`, exactly
one row of that type has `active = true` after the sequence completes,
regardless of the order or count of the saves; the save operation flips
`active = false` on every other row of the same type before persisting. -/
theorem singleton_active_after_save_sequence :
    (∀ (db ps : List ProfileRow), (db.map (fun r => r.id)).Nodup →
      ps ≠ [] → (∀ p ∈ ps, p.is_active = true) →
      countActiveProfiles (ps.foldl profileSave db) = 1) ∧
    (∀ (db ss : List SettingsRow), (db.map (fun r => r.id)).Nodup →
      ss ≠ [] → (∀ s ∈ ss, s.is_active = true) →
      countActiveSettings (ss.foldl settingsSave db) = 1) :=
  ⟨fun db ps hnd hne hall => countActiveProfiles_foldl ps db hnd hne hall,
   fun db ss hnd hne hall => countActiveSettings_foldl ss db hnd hne hall⟩

/-- Witness for C1: two active profile saves (and two active settings
saves) starting from the empty table leave exactly one active row. -/
theorem singleton_active_after_save_sequence_witness :
    countActiveProfiles
      (([sampleProfile 1 true, sampleProfile 2 true]).foldl profileSave [])
      = 1 ∧
    countActiveSettings
      (([defaultSettings 1, defaultSettings 2]).foldl settingsSave []) = 1 :=
  ⟨singleton_active_after_save_sequence.1 []
      [sampleProfile 1 true, sampleProfile 2 true]
      (by decide) (by decide) (by decide),
   singleton_active_after_save_sequence.2 []
      [defaultSettings 1, defaultSettings 2]
      (by decide) (by decide) (by decide)⟩

/-- C2 counterexample: a project whose title slugifies to the empty
string is created with slug equal to `slugify("!!!") = ""`, yet a later
save after renaming the title to "Hello" does recompute the slug (it
becomes "hello"), contradicting "no later save recomputes the slug even
if the name/title changes". -/
theorem slug_immutability_counterexample :
    slugify ("!!!") = "" ∧
    (projectSave [] cexProject).map (fun r => r.slug) = [""] ∧
    (projectSave (projectSave [] cexProject)
        { cexProject with title := "Hello" }).map (fun r => r.slug)
      = ["hello"] := by
  decide

/-- C2 (amended): on a save of a row whose slug is empty, the slug is set
to the slugified name/title (for Skill, of area name plus skill name);
a save of a row whose slug is nonempty leaves the row unchanged, so slugs
are immutable once nonempty.  (When the name/title slugifies to the empty
string the stored slug stays empty and remains subject to derivation on
later saves, as the counterexample shows.) -/
theorem slug_derivation_amended :
    (∀ p : ProjectRow, p.slug = "" →
      (projectSaveRow p).slug = slugify p.title) ∧
    (∀ p : ProjectRow, p.slug ≠ "" → projectSaveRow p = p) ∧
    (∀ sk : SkillRow, sk.slug = "" →
      (skillSaveRow sk).slug = slugify (sk.area_name ++ "-" ++ sk.name)) ∧
    (∀ sk : SkillRow, sk.slug ≠ "" → skillSaveRow sk = sk) := by
  refine ⟨fun p h => ?_, fun p h => ?_, fun sk h => ?_, fun sk h => ?_⟩ <;>
    simp [projectSaveRow, skillSaveRow, h]

/-- Witness for C2 (amended): a project created without a slug gets the
slugified title; a project and a skill with existing slugs are left
unchanged; a skill created without a slug gets the slugified
area-plus-name. -/
theorem slug_derivation_amended_witness :
    ((projectSaveRow (sampleProject 1 "Hello World" "" none ("s") "a")).slug
        = slugify ("Hello World")) ∧
    (projectSaveRow (sampleProject 2 "New Title" "old-slug" none ("s") "a")
        = sampleProject 2 "New Title" "old-slug" none ("s") "a") ∧
    ((skillSaveRow (sampleSkill 3 "Backend" "Python" "")).slug
        = slugify ("Backend" ++ "-" ++ "Python")) ∧
    (skillSaveRow (sampleSkill 4 "Backend" "Go" "kept-slug")
        = sampleSkill 4 "Backend" "Go" "kept-slug") :=
  ⟨slug_derivation_amended.1 _ (by decide),
   slug_derivation_amended.2.1 _ (by decide),
   slug_derivation_amended.2.2.1 _ (by decide),
   slug_derivation_amended.2.2.2 _ (by decide)⟩

/-- C3: a save of a blog post whose status is "published" and whose
`published_date` is empty sets `published_date` to the current instant;
any save of a post whose `published_date` is already set leaves
`published_date` unchanged. -/
theorem publish_date_defaulting :
    (∀ (now : Nat) (p : BlogPostRow), p.status = "published" →
      p.published_date = none →
      (blogPostSaveRow now p).published_date = some now) ∧
    (∀ (now : Nat) (p : BlogPostRow) (d : Nat), p.published_date = some d →
      (blogPostSaveRow now p).published_date = some d) := by
  constructor
  · intro now p hs hd
    by_cases hslug : p.slug = "" <;> simp [blogPostSaveRow, hslug, hs, hd]
  · intro now p d hd
    by_cases hslug : p.slug = "" <;> simp [blogPostSaveRow, hslug, hd]

/-- Witness for C3: publishing a dateless draft at instant 42 stamps 42;
a later save at instant 99 keeps 42. -/
theorem publish_date_defaulting_witness :
    (blogPostSaveRow 42 (samplePost 1 "post" "published" none 0)).published_date
      = some 42 ∧
    (blogPostSaveRow 99 (samplePost 1 "post" "published" (some 42) 0)).published_date
      = some 42 :=
  ⟨publish_date_defaulting.1 42 _ (by decide) (by decide),
   publish_date_defaulting.2 99 _ 42 (by decide)⟩

/-- C4: the intended duration computation (the source's rendering over
the calendar-month delta the missing `relativedelta` import was meant to
provide) renders "1 yr 2 mos" for 2020-01-15 → 2021-03-15 and
"Less than 1 month" for a current role started 2024-01-01 viewed on
2024-01-15.  The code itself raises `NameError` on every access to
`Experience.duration`. -/
theorem duration_intended_examples :
    durationIntended expJanToMar ⟨2024, 6, 1⟩ = "1 yr 2 mos" ∧
    durationIntended expCurrent ⟨2024, 1, 15⟩ = "Less than 1 month" := by
  decide

/-- C5: `is_expired` is false without an expiry date, equals
"expiry date strictly before today" otherwise, and in particular is false
on the boundary where the expiry date equals today. -/
theorem cert_expiry_boundary :
    (∀ (c : CertificationRow) (today : Date), c.expiry_date = none →
      certIsExpired c today = false) ∧
    (∀ (c : CertificationRow) (today d : Date), c.expiry_date = some d →
      certIsExpired c today = dateLt d today) ∧
    (∀ (c : CertificationRow) (today : Date), c.expiry_date = some today →
      certIsExpired c today = false) := by
  refine ⟨fun c today h => ?_, fun c today d h => ?_, fun c today h => ?_⟩ <;>
    simp [certIsExpired, h, dateLt_irrefl]

/-- Witness for C5: no expiry date is never expired; an expiry in 2020 is
expired by 2024-06-01 and equals the strict date comparison; an expiry
equal to today is not expired. -/
theorem cert_expiry_boundary_witness :
    certIsExpired (sampleCert 1 none) ⟨2024, 6, 1⟩ = false ∧
    certIsExpired (sampleCert 2 (some ⟨2020, 1, 1⟩)) ⟨2024, 6, 1⟩
      = dateLt ⟨2020, 1, 1⟩ ⟨2024, 6, 1⟩ ∧
    certIsExpired (sampleCert 3 (some ⟨2024, 6, 1⟩)) ⟨2024, 6, 1⟩ = false :=
  ⟨cert_expiry_boundary.1 _ _ (by decide),
   cert_expiry_boundary.2.1 _ _ _ (by decide),
   cert_expiry_boundary.2.2 _ _ (by decide)⟩

/-- C6: retrieving a published post through the blog-post detail accessor
`n` times sequentially increments its stored `view_count` by exactly `n`,
and a slug all of whose rows are non-published yields a NotFound error
(`none`) rather than a post. -/
theorem blog_view_count_and_published_only :
    (∀ (db : List BlogPostRow) (slug : String) (p : BlogPostRow) (n : Nat),
      getPublished db slug = some p →
      getPublished (viewTimes slug n db) slug =
        some { p with view_count := p.view_count + n }) ∧
    (∀ (db : List BlogPostRow) (slug : String),
      (∀ r ∈ db, r.slug = slug → ¬ r.status = "published") →
      viewPost db slug = none) :=
  ⟨fun db slug p n h => getPublished_viewTimes slug n db p h,
   fun db slug h => viewPost_not_published db slug h⟩

/-- Witness for C6: three sequential views of a published post raise its
stored count from 0 to 3, and viewing a draft post's slug is a 404. -/
theorem blog_view_count_and_published_only_witness :
    getPublished
        (viewTimes ("hello") 3
          [samplePost 1 "hello" "published" (some 10) 0,
           samplePost 2 "other" "published" (some 11) 7])
        "hello"
      = some { samplePost 1 "hello" "published" (some 10) 0 with
                view_count := 0 + 3 } ∧
    viewPost [samplePost 3 "draft-post" "draft" none 0] "draft-post"
      = none :=
  ⟨blog_view_count_and_published_only.1
      [samplePost 1 "hello" "published" (some 10) 0,
       samplePost 2 "other" "published" (some 11) 7]
      "hello" (samplePost 1 "hello" "published" (some 10) 0) 3 (by decide),
   blog_view_count_and_published_only.2
      [samplePost 3 "draft-post" "draft" none 0] "draft-post" (by decide)⟩

/-- C7: with a non-empty category slug and a non-empty free-text query,
the projects listing returns exactly the stored projects matching the
category whose title, situation or action contains the query
case-insensitively (OR-ed); a category slug matching no project yields
the empty list, not an error. -/
theorem projects_listing_filters :
    (∀ (db : List ProjectRow) (c s : String), c ≠ "" → s ≠ "" →
      projectsQueryset db (some c) (some s) =
        db.filter (fun p =>
          (icontains p.title s || icontains p.situation s ||
            icontains p.action s) && p.category_slug == some c)) ∧
    (∀ (db : List ProjectRow) (c : String) (q : Option String), c ≠ "" →
      (∀ p ∈ db, p.category_slug ≠ some c) →
      projectsQueryset db (some c) q = []) := by
  constructor
  · intro db c s hc hs
    simp only [projectsQueryset, hc, hs, if_false, List.filter_filter]
  · intro db c q hc hall
    have h0 : db.filter (fun p => p.category_slug == some c) = [] := by
      apply List.filter_eq_nil_iff.mpr
      intro p hp
      simp [hall p hp]
    cases q with
    | none => simp [projectsQueryset, hc, h0]
    | some s =>
      by_cases hs : s = "" <;> simp [projectsQueryset, hc, hs, h0]

/-- Witness for C7: searching `q="django"` in category "web" keeps
exactly the title/situation/action matches, and a nonexistent category
slug returns the empty list. -/
theorem projects_listing_filters_witness :
    projectsQueryset
        [sampleProject 1 "Django Site" "django-site" (some ("web")) "s" "a",
         sampleProject 2 "Shop" "shop" (some ("web")) "uses DJANGO" "a",
         sampleProject 3 "CLI Tool" "cli-tool" (some ("tools")) "s" "a"]
        (some ("web")) (some ("django"))
      = [sampleProject 1 "Django Site" "django-site" (some ("web")) "s" "a",
         sampleProject 2 "Shop" "shop" (some ("web")) "uses DJANGO" "a"] ∧
    projectsQueryset
        [sampleProject 1 "Django Site" "django-site" (some ("web")) "s" "a"]
        (some ("missing-category")) (some ("django"))
      = [] := by
  constructor
  · rw [projects_listing_filters.1 _ ("web") ("django") (by decide) (by decide)]
    decide
  · exact projects_listing_filters.2 _ ("missing-category") (some ("django"))
      (by decide) (by decide)

/-- C8 counterexample: with no SiteSettings row stored, the settings
export does not warn and skip — `get_settings` creates the default active
row and `site.json` is written from it. -/
theorem export_missing_settings_counterexample :
    export_site_settings [] 5
      = (.written ("site.json"), [defaultSettings 5]) := by
  decide

/-- C8 (amended): an export run with no active Profile reports a
non-fatal warning for the profile file, creates no row, raises no error,
and still exports every other collection; a missing SiteSettings row,
however, is not skipped: `get_settings` creates a default active settings
row and `site.json` is exported from it. -/
theorem export_missing_singletons_amended :
    ∀ (db : Database) (freshId : Nat),
      db.profiles.filter (fun r => r.is_active) = [] →
      db.settings = [] →
      exportHandle db freshId =
        .ok ([.warning ("No profile found"), .written ("skills.json"),
              .written ("projects.json"), .written ("experience.json"),
              .written ("certifications.json"), .written ("blog.json"),
              .written ("site.json")],
             { db with settings := [defaultSettings freshId] }) := by
  intro db freshId hp hs
  simp only [exportHandle, export_profile, hp, export_skills,
    export_projects, export_experience, export_certifications, export_blog,
    export_site_settings, get_settings, hs, List.filter_nil]
  rfl

/-- Witness for C8 (amended): a database holding one skill but no
profile and no settings exports with a profile warning, all other files
written, and a created default settings row. -/
theorem export_missing_singletons_amended_witness :
    exportHandle
        { profiles := []
          skills := [sampleSkill 1 "Backend" "Python" "backend-python"]
          projects := []
          experiences := []
          certifications := []
          posts := []
          settings := [] } 9
      = .ok ([.warning ("No profile found"), .written ("skills.json"),
              .written ("projects.json"), .written ("experience.json"),
              .written ("certifications.json"), .written ("blog.json"),
              .written ("site.json")],
             { profiles := []
               skills := [sampleSkill 1 "Backend" "Python" "backend-python"]
               projects := []
               experiences := []
               certifications := []
               posts := []
               settings := [defaultSettings 9] }) :=
  export_missing_singletons_amended _ 9 (by decide) (by decide)

/-- C9: on every state whose active settings rows number at most one
(the invariant `SiteSettings.save` maintains), `get_settings` returns a
settings row rather than raising, and when no active row exists it
creates and returns the default row, whose `site_title` is "Portfolio"
and whose `contact_email` is "contact@example.com". -/
theorem get_settings_never_fails :
    (∀ (db : List SettingsRow) (freshId : Nat),
      (db.filter (fun r => r.is_active)).length ≤ 1 →
      ∃ out, get_settings db freshId = .ok out) ∧
    (∀ (db : List SettingsRow) (freshId : Nat),
      db.filter (fun r => r.is_active) = [] →
      get_settings db freshId =
        .ok (defaultSettings freshId,
             settingsSave db (defaultSettings freshId))) ∧
    (∀ freshId : Nat, (defaultSettings freshId).site_title = "Portfolio" ∧
      (defaultSettings freshId).contact_email = "contact@example.com") := by
  refine ⟨fun db freshId h => ?_, fun db freshId h => ?_,
    fun freshId => ⟨rfl, rfl⟩⟩
  · rcases hf : db.filter (fun r => r.is_active) with _ | ⟨a, _ | ⟨b, rest⟩⟩
    · exact ⟨(defaultSettings freshId,
        settingsSave db (defaultSettings freshId)),
        by simp [get_settings, hf]⟩
    · exact ⟨(a, db), by simp [get_settings, hf]⟩
    · rw [hf] at h
      simp at h
  · simp [get_settings, h]

/-- Witness for C9: on the empty state `get_settings` succeeds and
returns the created default row. -/
theorem get_settings_never_fails_witness :
    (∃ out, get_settings [] 3 = .ok out) ∧
    get_settings [] 3
      = .ok (defaultSettings 3, settingsSave [] (defaultSettings 3)) ∧
    (defaultSettings 3).site_title = "Portfolio" ∧
    (defaultSettings 3).contact_email = "contact@example.com" :=
  ⟨get_settings_never_fails.1 [] 3 (by decide),
   get_settings_never_fails.2.1 [] 3 (by decide),
   get_settings_never_fails.2.2 3⟩

/-- C10: with no active profile the JSON profile endpoint returns HTTP
200 with an empty object instead of a NotFound error; with an active
profile it returns that profile's name, title, bio, summary, email and
social links. -/
theorem profile_json_empty_on_missing :
    (∀ db : List ProfileRow, db.filter (fun r => r.is_active) = [] →
      profile_json db = { status := 200, data := none }) ∧
    (∀ (db : List ProfileRow) (p : ProfileRow) (rest : List ProfileRow),
      db.filter (fun r => r.is_active) = p :: rest →
      profile_json db =
        { status := 200
          data := some
            { name := p.name
              title := p.job_title
              bio := p.bio
              summary := p.summary
              email := p.email
              github := p.github_url
              linkedin := p.linkedin_url
              twitter := p.twitter_url } }) := by
  constructor
  · intro db h
    simp [profile_json, h]
  · intro db p rest h
    simp [profile_json, h]

/-- Witness for C10: an all-inactive table yields the 200 empty object;
a table whose active rows start with a sample profile yields its
fields. -/
theorem profile_json_empty_on_missing_witness :
    profile_json [sampleProfile 1 false]
      = { status := 200, data := none } ∧
    profile_json [sampleProfile 1 false, sampleProfile 2 true]
      = { status := 200
          data := some
            { name := (sampleProfile 2 true).name
              title := (sampleProfile 2 true).job_title
              bio := (sampleProfile 2 true).bio
              summary := (sampleProfile 2 true).summary
              email := (sampleProfile 2 true).email
              github := (sampleProfile 2 true).github_url
              linkedin := (sampleProfile 2 true).linkedin_url
              twitter := (sampleProfile 2 true).twitter_url } } :=
  ⟨profile_json_empty_on_missing.1 [sampleProfile 1 false] (by decide),
   profile_json_empty_on_missing.2
      [sampleProfile 1 false, sampleProfile 2 true]
      (sampleProfile 2 true) [] (by decide)⟩
end Portfolio
